import Mathlib

/-!
Verification of the ReadMeABook acquisition pipeline against its
natural-language specification.

The development shallowly embeds the pieces of the repository that the
claims are about:

* the ranking engine's coverage gate, dual-threshold filter and seeder
  scoring (the ranking implementation itself ships only as documentation,
  so those pieces are modelled from the spec, as marked on each such
  definition);
* the `processSearchIndexers` job processor
  (`src/lib/processors/search-indexers.processor.ts`);
* the fetch-ebook API route (sidecar request creation/reset);
* the `PathMapper.transform` utility (`src/lib/utils/path-mapper.ts`),
  including Node's posix path normalization and join;
* the `RMABLogger` logging system (`src/lib/utils/logger.ts`) together
  with its fire-and-forget database persistence.

Stateful/asynchronous code is embedded as explicit state passing;
a thrown JavaScript exception is an `Except.error`, a normal return an
`Except.ok`.
-/

/-! ## Generic character-list helpers (JavaScript string semantics) -/

/-- Splits a character list at separators selected by `p`, keeping empty
segments, mirroring JavaScript `String.split` semantics
(`"a//b".split('/') = ["a", "", "b"]`). -/
def splitCharList (p : Char → Bool) : List Char → List (List Char)
  | [] => [[]]
  | c :: rest =>
    if p c then [] :: splitCharList p rest
    else
      match splitCharList p rest with
      | [] => [[c]]
      | h :: t => (c :: h) :: t

/-- Boolean test that `pre` is an initial segment of `s`, mirroring
JavaScript `String.startsWith`. -/
def listStartsWith : List Char → List Char → Bool
  | _, [] => true
  | [], _ :: _ => false
  | c :: s, p :: ps => c == p && listStartsWith s ps

/-! ## Ranking engine fragments

The ranking implementation (`ranking-algorithm.ts`) is not part of the
sources; only `documentation/phase3/ranking-algorithm.md` is.  The
definitions below are therefore modelled from the spec (and that
document), as their comments state. -/

/-- Modelled from the spec: the fixed stop-word set the coverage gate
removes before counting significant title words (the ranking
implementation is missing from the sources; the word list is the one in
`documentation/phase3/ranking-algorithm.md`). -/
def stopWords : List String := ["the", "a", "an", "of", "on", "in", "at", "by", "for"]

/-- Modelled from the spec: tokenize a title into lowercase alphanumeric
words (the ranking implementation is missing from the sources). -/
def titleWords (s : String) : List String :=
  ((splitCharList (fun c => !c.isAlphanum) (s.data.map Char.toLower)).filter
    (fun w => !w.isEmpty)).map (fun w => ⟨w⟩)

/-- Modelled from the spec: the significant words of a title, i.e. its
words with the stop words removed. -/
def significantWords (s : String) : List String :=
  (titleWords s).filter (fun w => !(stopWords.contains w))

/-- Modelled from the spec: word-coverage fraction of the target title by
a candidate title, as the pair (number of significant target words found
in the candidate, total number of significant target words). -/
def coverageCount (target candidate : String) : Nat × Nat :=
  let tw := significantWords target
  let cw := significantWords candidate
  ((tw.filter (fun w => cw.contains w)).length, tw.length)

/-- Modelled from the spec: the mandatory coverage gate passes exactly
when at least 80% of the significant target words appear in the
candidate title. -/
def coveragePasses (target candidate : String) : Bool :=
  decide ((coverageCount target candidate).2 * 80 ≤ (coverageCount target candidate).1 * 100)

/-- The per-stage partial scores of the later ranking stages (title,
author, format, seeders, size).  The claims about the coverage gate hold
for arbitrary values of these, so they are inputs of `baseScore`. -/
structure StageScores where
  titleScore : ℚ
  authorScore : ℚ
  formatScore : ℚ
  seederScore : ℚ
  sizeScore : ℚ
deriving DecidableEq

/-- Modelled from the spec: the combined base score — the later stages'
sum when the coverage gate passes, and forced to 0 when it does not. -/
def baseScore (target candidate : String) (s : StageScores) : ℚ :=
  if coveragePasses target candidate then
    s.titleScore + s.authorScore + s.formatScore + s.seederScore + s.sizeScore
  else 0

/-- Modelled from the spec: the availability/seed scoring stage,
`min(15, log10(seedCount + 1) * 6)` (the ranking implementation is
missing from the sources; the formula is the one in
`documentation/phase3/ranking-algorithm.md`). -/
noncomputable def seederScore (seeders : ℕ) : ℝ :=
  min 15 (Real.logb 10 (seeders + 1) * 6)

/-- A ranked candidate as consumed by the search processor: the ranker
attaches a base `score` and `bonusPoints` to each torrent result. -/
structure RankedResult where
  title : String
  score : ℚ
  bonusPoints : ℚ
deriving DecidableEq

/-- Modelled from the spec: the final score of a ranked candidate is its
base score plus its bonus points (the ranker, which computes the
`finalScore` field the processor reads, is missing from the sources). -/
def finalScore (r : RankedResult) : ℚ := r.score + r.bonusPoints

/-- The dual-threshold filter of `processSearchIndexers`
(`search-indexers.processor.ts:112`): keep a ranked result exactly when
its base score is at least 50 and its final score is at least 50. -/
def filteredResults (rs : List RankedResult) : List RankedResult :=
  rs.filter (fun r => decide (50 ≤ r.score) && decide (50 ≤ finalScore r))

/-! ## Request and job records -/

/-- The request statuses appearing in the request state machine. -/
inductive RequestStatus
  | pending
  | searching
  | awaiting_search
  | downloading
  | processing
  | downloaded
  | available
  | failed
deriving DecidableEq

/-- The fields of a Request row that the embedded operations read or
write. -/
structure RequestRec where
  status : RequestStatus
  errorMessage : Option String
  searchAttempts : Nat
  progress : Nat
deriving DecidableEq

/-- Job statuses of the job queue. -/
inductive JobStatus
  | queued
  | running
  | completed
  | failed
deriving DecidableEq

/-- The fields of a Job row relevant to retry accounting. -/
structure JobRec where
  status : JobStatus
  attempts : Nat
  maxAttempts : Nat
  errorMessage : Option String
deriving DecidableEq

/-! ## The search-indexers job processor -/

/-- One configured indexer entry of the `prowlarr_indexers`
configuration blob. -/
structure Indexer where
  id : Nat
  priority : Option Nat
deriving DecidableEq

/-- A raw search hit returned by the external search service. -/
structure TorrentResult where
  title : String
deriving DecidableEq

/-- The structured result value `processSearchIndexers` returns to the
job queue on a normal (non-throwing) return. -/
structure SearchRet where
  success : Bool
  message : String
deriving DecidableEq

/-- The environment of one `processSearchIndexers` run: the parsed
indexer configuration (`none` when the `prowlarr_indexers` key is
absent), the external search service's results, and the ranking
function applied to them (external to the processor). -/
structure SearchEnv where
  indexersConfig : Option (List Indexer)
  searchResults : List TorrentResult
  rank : List TorrentResult → List RankedResult

/-- The observable outcome of one `processSearchIndexers` run: the final
Request row, the processor's return value (`Except.error` when it
throws, i.e. when the exception propagates to the job queue), and
whether a download job was enqueued. -/
structure SearchOutcome where
  req : RequestRec
  result : Except String SearchRet
  enqueuedDownload : Bool

/-- Embedding of `processSearchIndexers`
(`src/lib/processors/search-indexers.processor.ts`).  The processor
first moves the Request to `searching` and increments `searchAttempts`;
a missing or empty indexer configuration throws, which the catch block
turns into Request status `failed` with the error message before
rethrowing; an empty search result or an empty dual-threshold filter
result moves the Request to `awaiting_search` with an error message and
returns normally; otherwise a download job is enqueued and the
processor returns success. -/
def processSearchIndexers (env : SearchEnv) (req : RequestRec) : SearchOutcome :=
  let req1 : RequestRec := { req with status := .searching, searchAttempts := req.searchAttempts + 1 }
  match env.indexersConfig with
  | none =>
    let msg := "No indexers configured. Please configure indexers in settings."
    { req := { req1 with status := .failed, errorMessage := some msg },
      result := .error msg,
      enqueuedDownload := false }
  | some cfg =>
    if cfg.length = 0 then
      let msg := "No indexers enabled. Please enable at least one indexer in settings."
      { req := { req1 with status := .failed, errorMessage := some msg },
        result := .error msg,
        enqueuedDownload := false }
    else if env.searchResults.length = 0 then
      let msg := "No torrents found. Will retry automatically."
      { req := { req1 with status := .awaiting_search, errorMessage := some msg },
        result := .ok { success := false, message := "No torrents found, queued for re-search" },
        enqueuedDownload := false }
    else
      let ranked := env.rank env.searchResults
      let filtered := filteredResults ranked
      if filtered.length = 0 then
        let msg := "No quality matches found. Will retry automatically."
        { req := { req1 with status := .awaiting_search, errorMessage := some msg },
          result := .ok { success := false,
                          message := "No quality matches found, queued for re-search" },
          enqueuedDownload := false }
      else
        { req := req1,
          result := .ok { success := true,
                          message := "Found " ++ toString filtered.length ++
                            " quality matches, selected best torrent" },
          enqueuedDownload := true }

/-- Modelled from the spec: the Job Queue boundary (spec section 4.1;
`job-queue.service.ts` is missing from the sources).  A processor that
returns normally completes its job; a processor that throws is routed
to `fail`, which increments the attempt counter and either re-queues the
job or marks it permanently failed. -/
def jobBoundary (job : JobRec) (outcome : Except String SearchRet) : JobRec :=
  match outcome with
  | .ok _ => { job with status := .completed }
  | .error e =>
    if job.attempts + 1 < job.maxAttempts then
      { job with status := .queued, attempts := job.attempts + 1, errorMessage := some e }
    else
      { job with status := .failed, attempts := job.attempts + 1, errorMessage := some e }

/-! ## The fetch-ebook API route (sidecar requests) -/

/-- The audiobook metadata attached to a parent request. -/
structure Audiobook where
  id : String
  title : String
  author : String
  audibleAsin : Option String
deriving DecidableEq

/-- The parent (primary) Request row as loaded by the route. -/
structure ParentRequest where
  userId : String
  audiobookId : String
  status : RequestStatus
  audiobook : Audiobook
deriving DecidableEq

/-- An already-existing ebook sidecar Request for the same parent
(result of the route's `findFirst` over non-deleted ebook requests). -/
structure ExistingEbookRequest where
  id : String
  status : RequestStatus
deriving DecidableEq

/-- The environment of one fetch-ebook POST: whether the
`ebook_sidecar_enabled` configuration value is the string `true`, the
parent Request looked up by id, and any existing non-deleted ebook
sidecar Request for that parent. -/
structure FetchEbookEnv where
  ebookSidecarEnabled : Bool
  parent : Option ParentRequest
  existingEbook : Option ExistingEbookRequest
deriving DecidableEq

/-- The fields written when the route resets an existing sidecar
Request. -/
structure RequestPatch where
  status : RequestStatus
  progress : Nat
  errorMessage : Option String
deriving DecidableEq

/-- The observable outcome of one fetch-ebook POST: HTTP status,
the `success` flag of the JSON body, whether a new ebook Request row was
created, the update applied to an existing sidecar Request (if any), and
whether a search-ebook job was enqueued. -/
structure FetchEbookResult where
  httpStatus : Nat
  success : Bool
  createdEbookRequest : Bool
  updatedExisting : Option (String × RequestPatch)
  enqueuedSearchEbookJob : Bool
deriving DecidableEq

/-- Embedding of the fetch-ebook POST route (`src/unnamed/part_003`,
Fetch E-book API).  Order of checks follows the source: feature flag,
parent existence, parent status in {downloaded, available}, then either
reset-and-retry of an existing failed/awaiting_search sidecar, a
rejection when the sidecar exists in another state, or creation of a new
sidecar Request plus a search job. -/
def fetchEbookPOST (env : FetchEbookEnv) : FetchEbookResult :=
  if !env.ebookSidecarEnabled then
    { httpStatus := 400, success := false, createdEbookRequest := false,
      updatedExisting := none, enqueuedSearchEbookJob := false }
  else
    match env.parent with
    | none =>
      { httpStatus := 404, success := false, createdEbookRequest := false,
        updatedExisting := none, enqueuedSearchEbookJob := false }
    | some parent =>
      if parent.status = .downloaded ∨ parent.status = .available then
        match env.existingEbook with
        | some e =>
          if e.status = .failed ∨ e.status = .awaiting_search then
            { httpStatus := 200, success := true, createdEbookRequest := false,
              updatedExisting := some (e.id, { status := .pending, progress := 0, errorMessage := none }),
              enqueuedSearchEbookJob := true }
          else
            { httpStatus := 200, success := false, createdEbookRequest := false,
              updatedExisting := none, enqueuedSearchEbookJob := false }
        | none =>
          { httpStatus := 200, success := true, createdEbookRequest := true,
            updatedExisting := none, enqueuedSearchEbookJob := true }
      else
        { httpStatus := 400, success := false, createdEbookRequest := false,
          updatedExisting := none, enqueuedSearchEbookJob := false }

/-! ## PathMapper -/

/-- Configuration of the path mapping utility
(`src/lib/utils/path-mapper.ts`). -/
structure PathMappingConfig where
  enabled : Bool
  remotePath : String
  localPath : String
deriving DecidableEq

/-- One step of Node's posix `path.normalize` segment resolution: empty
and `.` segments are dropped; `..` pops the previous segment when one is
available, is dropped at the root of an absolute path, and is kept for a
relative path; other segments are pushed.  The accumulator holds the
segments processed so far in reverse order. -/
def normStep (isAbs : Bool) (acc : List (List Char)) (seg : List Char) : List (List Char) :=
  if seg.isEmpty || seg == ['.'] then acc
  else if seg == ['.', '.'] then
    match acc with
    | [] => if isAbs then [] else [['.', '.']]
    | h :: t => if h == ['.', '.'] then seg :: acc else t
  else seg :: acc

/-- Embedding of `PathMapper.normalizePath`: backslashes become forward
slashes, Node's posix `path.normalize` resolves `.`/`..`/redundant
separators, and a trailing slash is removed (except for the root). -/
def normalizePathChars (cs : List Char) : List Char :=
  let cs := cs.map (fun c => if c == '\\' then '/' else c)
  let isAbs := cs.head? == some '/'
  let segs := ((splitCharList (fun c => c == '/') cs).foldl (normStep isAbs) []).reverse
  match segs with
  | [] => if isAbs then ['/'] else ['.']
  | _ => (if isAbs then ['/'] else []) ++ (segs.intersperse ['/']).flatten

/-- Embedding of Node's posix `path.join` on two arguments: empty
arguments are dropped, the remaining ones are joined with `/` and the
result is normalized; joining nothing yields `.`. -/
def pathJoinChars (a b : List Char) : List Char :=
  let parts := [a, b].filter (fun l => !l.isEmpty)
  if parts.isEmpty then ['.']
  else normalizePathChars ((parts.intersperse ['/']).flatten)

/-- Embedding of `PathMapper.transform`
(`src/lib/utils/path-mapper.ts:30`): return the path unchanged when
mapping is disabled, when the path or either configured path is empty,
or when the normalized path does not start with the normalized remote
path; otherwise join the normalized local path with the remainder of the
normalized path after the remote prefix. -/
def PathMapper.transform (qbittorrentPath : String) (config : PathMappingConfig) : String :=
  if !config.enabled then qbittorrentPath
  else if qbittorrentPath.data.isEmpty || config.remotePath.data.isEmpty ||
      config.localPath.data.isEmpty then qbittorrentPath
  else
    let nr := normalizePathChars config.remotePath.data
    let nl := normalizePathChars config.localPath.data
    let nq := normalizePathChars qbittorrentPath.data
    if !listStartsWith nq nr then qbittorrentPath
    else ⟨pathJoinChars nl (nq.drop nr.length)⟩

/-! ## RMABLogger -/

/-- The log levels a logging method can emit (the source's
`Exclude<LogLevel, 'quiet'>`). -/
inductive EmitLevel
  | debug
  | info
  | warn
  | error
deriving DecidableEq

/-- The numeric priority of each emit level (`LEVEL_PRIORITY`,
`src/lib/utils/logger.ts:18`; `quiet` has priority 4). -/
def emitPriority : EmitLevel → Nat
  | .debug => 0
  | .info => 1
  | .warn => 2
  | .error => 3

/-- The display name of a level, used in the console line format. -/
def emitName : EmitLevel → String
  | .debug => "DEBUG"
  | .info => "INFO"
  | .warn => "WARN"
  | .error => "ERROR"

/-- One persisted row of the append-only `job_events` store. -/
structure JobEvent where
  jobId : String
  level : EmitLevel
  context : String
  message : String
  metadata : Option String
deriving DecidableEq

/-- The state the logger can observe or touch: the console transcript,
the persisted `job_events` store, and — for frame reasoning — the
pipeline-critical Job and Request rows, which the logger never
references. -/
structure SystemState where
  console : List String
  jobEvents : List JobEvent
  jobs : List JobRec
  requests : List RequestRec
deriving DecidableEq

/-- An `RMABLogger` instance: a context namespace and, for job-aware
loggers (`RMABLogger.forJob`), the job id used for database
persistence. -/
structure RMABLogger where
  context : String
  jobId : Option String
deriving DecidableEq

/-- `RMABLogger.create`: console-only logger. -/
def RMABLogger.create (context : String) : RMABLogger := ⟨context, none⟩

/-- `RMABLogger.forJob`: job-aware logger (console only when `jobId` is
`undefined`). -/
def RMABLogger.forJob (jobId : Option String) (context : String) : RMABLogger :=
  ⟨context, jobId⟩

/-- Embedding of `RMABLogger.persistToDatabase`
(`src/lib/utils/logger.ts:180`).  The database write attempt is given as
an `Except` (the database may fail); its `.catch(() => \x7b\x7d)` means a
failed write leaves every store untouched and the call still returns
normally — the second component is the exception surface of the call,
and it is `Except.ok` in both branches. -/
def persistToDatabase (l : RMABLogger) (level : EmitLevel) (message : String)
    (metadata : Option String) (attempt : Except String Unit) (st : SystemState) :
    SystemState × Except String Unit :=
  match attempt with
  | .ok _ =>
    ({ st with jobEvents := st.jobEvents ++
        [{ jobId := l.jobId.getD "", level := level, context := l.context,
           message := message, metadata := metadata }] }, .ok ())
  | .error _ => (st, .ok ())

/-- Embedding of the private `RMABLogger.log`
(`src/lib/utils/logger.ts:133`): drop the message when its level is
below the configured priority; otherwise write the formatted line to the
console and, only for a job-aware logger and a non-debug level, persist
the event (fire-and-forget).  The function is total and returns only the
new state: no exception can propagate out of a logging call. -/
def RMABLogger.log (l : RMABLogger) (cfgPriority : Nat) (level : EmitLevel)
    (message : String) (metadata : Option String) (attempt : Except String Unit)
    (st : SystemState) : SystemState :=
  if emitPriority level < cfgPriority then st
  else
    let st1 : SystemState :=
      { st with console := st.console ++
          ["[" ++ emitName level ++ "] [" ++ l.context ++ "] " ++ message] }
    if l.jobId.isSome && !(level == .debug) then
      (persistToDatabase l level message metadata attempt st1).1
    else st1

/-- `RMABLogger.debug` (`src/lib/utils/logger.ts:102`). -/
def RMABLogger.debug (l : RMABLogger) (cfgPriority : Nat) (message : String)
    (metadata : Option String) (attempt : Except String Unit) (st : SystemState) :
    SystemState :=
  l.log cfgPriority .debug message metadata attempt st

/-- `RMABLogger.info` (`src/lib/utils/logger.ts:110`). -/
def RMABLogger.info (l : RMABLogger) (cfgPriority : Nat) (message : String)
    (metadata : Option String) (attempt : Except String Unit) (st : SystemState) :
    SystemState :=
  l.log cfgPriority .info message metadata attempt st

/-- `RMABLogger.warn` (`src/lib/utils/logger.ts:118`). -/
def RMABLogger.warn (l : RMABLogger) (cfgPriority : Nat) (message : String)
    (metadata : Option String) (attempt : Except String Unit) (st : SystemState) :
    SystemState :=
  l.log cfgPriority .warn message metadata attempt st

/-- `RMABLogger.error` (`src/lib/utils/logger.ts:126`). -/
def RMABLogger.error (l : RMABLogger) (cfgPriority : Nat) (message : String)
    (metadata : Option String) (attempt : Except String Unit) (st : SystemState) :
    SystemState :=
  l.log cfgPriority .error message metadata attempt st

/-! ## Helper lemmas -/

/-- The job-queue boundary increments the attempt counter for every
thrown error, whether the job is re-queued or permanently failed. -/
theorem jobBoundary_error_attempts (job : JobRec) (e : String) :
    (jobBoundary job (.error e)).attempts = job.attempts + 1 := by
  unfold jobBoundary
  by_cases hj : job.attempts + 1 < job.maxAttempts <;> simp [hj]

/-! ## Claim theorems -/

/-- C1: for every candidate/target pair and arbitrary later-stage scores,
a word coverage below 80% forces the base score to 0; in particular, for
target "The Wild Robot on the Island" the candidate "The Wild Robot" has
coverage 2/3 and scores 0, while "The Wild Robot on the Island
[Unabridged]" has coverage 3/3 and is scored normally (the sum of the
stage scores). -/
theorem coverage_gate_forces_zero_base_score :
    (∀ target candidate s, coveragePasses target candidate = false →
      baseScore target candidate s = 0) ∧
    coverageCount "The Wild Robot on the Island" "The Wild Robot" = (2, 3) ∧
    (∀ s, baseScore "The Wild Robot on the Island" "The Wild Robot" s = 0) ∧
    coverageCount "The Wild Robot on the Island"
      "The Wild Robot on the Island [Unabridged]" = (3, 3) ∧
    (∀ s, baseScore "The Wild Robot on the Island"
      "The Wild Robot on the Island [Unabridged]" s =
      s.titleScore + s.authorScore + s.formatScore + s.seederScore + s.sizeScore) := by
  refine ⟨?_, by decide, ?_, by decide, ?_⟩
  · intro t c s h
    simp [baseScore, h]
  · intro s
    have h : coveragePasses "The Wild Robot on the Island" "The Wild Robot" = false := by decide
    simp [baseScore, h]
  · intro s
    have h : coveragePasses "The Wild Robot on the Island"
        "The Wild Robot on the Island [Unabridged]" = true := by decide
    simp [baseScore, h]

/-- C1 witness: the gate fails concretely for "The Wild Robot" and the
claim theorem then forces a zero base score at concrete stage scores. -/
theorem coverage_gate_forces_zero_base_score_witness :
    coveragePasses "The Wild Robot on the Island" "The Wild Robot" = false ∧
    baseScore "The Wild Robot on the Island" "The Wild Robot" ⟨35, 15, 25, 15, 10⟩ = 0 :=
  ⟨by decide, coverage_gate_forces_zero_base_score.1 _ _ ⟨35, 15, 25, 15, 10⟩ (by decide)⟩

/-- C2: a ranked candidate is in the qualifying set of a search pass iff
it was among the ranked results and its base score and final score
(base score plus bonus points) are both at least 50; in particular a
candidate with base score 80 and bonus points -40 is excluded. -/
theorem dual_threshold_filter_spec :
    (∀ (rs : List RankedResult) (r : RankedResult),
      r ∈ filteredResults rs ↔ r ∈ rs ∧ 50 ≤ r.score ∧ 50 ≤ finalScore r) ∧
    (∀ (rs : List RankedResult) (r : RankedResult),
      r.score = 80 → r.bonusPoints = -40 → r ∉ filteredResults rs) := by
  constructor
  · intro rs r
    simp [filteredResults, List.mem_filter, and_assoc]
  · intro rs r h1 h2 hmem
    rw [filteredResults, List.mem_filter] at hmem
    have hp := hmem.2
    simp [finalScore, h1, h2] at hp
    norm_num at hp

/-- C2 witness: a concrete candidate with base score 80 and bonus -40 is
excluded even from a list containing it. -/
theorem dual_threshold_filter_spec_witness :
    ({ title := "t", score := 80, bonusPoints := -40 } : RankedResult) ∉
      filteredResults [{ title := "t", score := 80, bonusPoints := -40 }] :=
  dual_threshold_filter_spec.2 _ _ rfl rfl

/-- C3: when the indexer configuration is present and non-empty and the
external search returns no candidates, or none passes the
dual-threshold filter, the processor moves the Request to
awaiting_search with an error message, returns normally, and the job
queue boundary completes the job without consuming an attempt. -/
theorem no_candidates_marks_awaiting_search (env : SearchEnv) (req : RequestRec)
    (cfg : List Indexer) (job : JobRec) (hc : env.indexersConfig = some cfg)
    (hne : cfg ≠ [])
    (h : env.searchResults = [] ∨ filteredResults (env.rank env.searchResults) = []) :
    (processSearchIndexers env req).req.status = .awaiting_search ∧
    ((processSearchIndexers env req).req.errorMessage).isSome = true ∧
    (jobBoundary job (processSearchIndexers env req).result).status = .completed ∧
    (jobBoundary job (processSearchIndexers env req).result).attempts = job.attempts := by
  have hlen : ¬ cfg.length = 0 := by simpa [List.length_eq_zero] using hne
  rcases h with h | h
  · simp [processSearchIndexers, hc, hlen, h, jobBoundary]
  · by_cases hsr : env.searchResults = []
    · simp [processSearchIndexers, hc, hlen, hsr, jobBoundary]
    · have hsl : ¬ env.searchResults.length = 0 := by
        simpa [List.length_eq_zero] using hsr
      simp [processSearchIndexers, hc, hlen, hsl, h, jobBoundary]

/-- C3 witness: a concrete run with one enabled indexer and zero search
results lands in awaiting_search with an error message and a completed
job whose attempt counter is untouched. -/
theorem no_candidates_marks_awaiting_search_witness :
    (processSearchIndexers ⟨some [⟨1, some 10⟩], [], fun _ => []⟩
      ⟨.pending, none, 0, 0⟩).req.status = .awaiting_search ∧
    ((processSearchIndexers ⟨some [⟨1, some 10⟩], [], fun _ => []⟩
      ⟨.pending, none, 0, 0⟩).req.errorMessage).isSome = true ∧
    (jobBoundary ⟨.running, 0, 3, none⟩ (processSearchIndexers
      ⟨some [⟨1, some 10⟩], [], fun _ => []⟩ ⟨.pending, none, 0, 0⟩).result).status =
      .completed ∧
    (jobBoundary ⟨.running, 0, 3, none⟩ (processSearchIndexers
      ⟨some [⟨1, some 10⟩], [], fun _ => []⟩ ⟨.pending, none, 0, 0⟩).result).attempts = 0 :=
  no_candidates_marks_awaiting_search _ _ [⟨1, some 10⟩] ⟨.running, 0, 3, none⟩ rfl
    (by decide) (Or.inl rfl)

/-- C4 counterexample: with no indexers configured, the processor's
catch block stores the descriptive error on the Request but then
rethrows, so the configuration error reaches the Job Queue boundary,
which consumes a retry attempt (attempts goes from 0 to 1) and
re-queues the job — refuting that a configuration error is not routed
into the Job Queue's retry handling. -/
theorem config_error_counterexample :
    (processSearchIndexers ⟨none, [], fun _ => []⟩ ⟨.pending, none, 0, 0⟩).result =
      .error "No indexers configured. Please configure indexers in settings." ∧
    (processSearchIndexers ⟨none, [], fun _ => []⟩ ⟨.pending, none, 0, 0⟩).req.errorMessage =
      some "No indexers configured. Please configure indexers in settings." ∧
    (jobBoundary ⟨.running, 0, 3, none⟩ (processSearchIndexers ⟨none, [], fun _ => []⟩
      ⟨.pending, none, 0, 0⟩).result).attempts = 1 ∧
    (jobBoundary ⟨.running, 0, 3, none⟩ (processSearchIndexers ⟨none, [], fun _ => []⟩
      ⟨.pending, none, 0, 0⟩).result).status = .queued :=
  ⟨rfl, rfl, rfl, rfl⟩

/-- C4 (amended): a configuration error (no indexers configured, or no
indexers enabled) sets the Request's errorMessage to a descriptive
message and its status to failed immediately, and the error is rethrown
to the Job Queue's retry handling, consuming one retry attempt. -/
theorem config_error_sets_error_and_rethrows (env : SearchEnv) (req : RequestRec)
    (job : JobRec)
    (h : env.indexersConfig = none ∨ env.indexersConfig = some []) :
    (processSearchIndexers env req).req.errorMessage.isSome = true ∧
    (processSearchIndexers env req).req.status = .failed ∧
    (∃ e, (processSearchIndexers env req).result = .error e) ∧
    (jobBoundary job (processSearchIndexers env req).result).attempts = job.attempts + 1 := by
  have hres : ∃ e, (processSearchIndexers env req).result = .error e ∧
      (processSearchIndexers env req).req.errorMessage = some e ∧
      (processSearchIndexers env req).req.status = .failed := by
    rcases h with h | h
    · exact ⟨"No indexers configured. Please configure indexers in settings.",
        by simp [processSearchIndexers, h], by simp [processSearchIndexers, h],
        by simp [processSearchIndexers, h]⟩
    · exact ⟨"No indexers enabled. Please enable at least one indexer in settings.",
        by simp [processSearchIndexers, h], by simp [processSearchIndexers, h],
        by simp [processSearchIndexers, h]⟩
  obtain ⟨e, he, hm, hs⟩ := hres
  refine ⟨by simp [hm], hs, ⟨e, he⟩, ?_⟩
  rw [he]
  exact jobBoundary_error_attempts job e

/-- C4 witness: the amended claim at a concrete run with a missing
indexer configuration. -/
theorem config_error_sets_error_and_rethrows_witness :
    (processSearchIndexers ⟨none, [], fun _ => []⟩
      ⟨.pending, none, 0, 0⟩).req.errorMessage.isSome = true ∧
    (processSearchIndexers ⟨none, [], fun _ => []⟩ ⟨.pending, none, 0, 0⟩).req.status =
      .failed ∧
    (∃ e, (processSearchIndexers ⟨none, [], fun _ => []⟩
      ⟨.pending, none, 0, 0⟩).result = .error e) ∧
    (jobBoundary ⟨.running, 2, 3, none⟩ (processSearchIndexers ⟨none, [], fun _ => []⟩
      ⟨.pending, none, 0, 0⟩).result).attempts = 2 + 1 :=
  config_error_sets_error_and_rethrows ⟨none, [], fun _ => []⟩ ⟨.pending, none, 0, 0⟩
    ⟨.running, 2, 3, none⟩ (Or.inl rfl)

/-- C5: whenever a non-deleted ebook sidecar Request already exists for
the parent, the route never creates a second sidecar Request; and when
the feature is enabled, the parent is completed and the existing sidecar
is failed or awaiting_search, the route resets it to pending with
progress 0 and a cleared errorMessage and enqueues a new search job. -/
theorem sidecar_retry_resets_existing (env : FetchEbookEnv) (e : ExistingEbookRequest)
    (p : ParentRequest) (hex : env.existingEbook = some e) :
    (fetchEbookPOST env).createdEbookRequest = false ∧
    (env.ebookSidecarEnabled = true → env.parent = some p →
      (p.status = .downloaded ∨ p.status = .available) →
      (e.status = .failed ∨ e.status = .awaiting_search) →
      (fetchEbookPOST env).updatedExisting =
        some (e.id, { status := .pending, progress := 0, errorMessage := none }) ∧
      (fetchEbookPOST env).enqueuedSearchEbookJob = true) := by
  constructor
  · unfold fetchEbookPOST
    cases hen : env.ebookSidecarEnabled with
    | false => simp
    | true =>
      simp only [Bool.not_true, Bool.false_eq_true, if_false]
      cases hp : env.parent with
      | none => simp
      | some parent =>
        by_cases hs : parent.status = .downloaded ∨ parent.status = .available
        · simp only [hs, if_true, hex]
          by_cases hr : e.status = .failed ∨ e.status = .awaiting_search
          · simp [hr]
          · simp [hr]
        · simp [hs]
  · intro hen hp hst hrs
    simp [fetchEbookPOST, hen, hp, hex, hst, hrs]

/-- C5 witness: with the feature enabled, a downloaded parent and an
existing failed sidecar, the route resets rather than duplicates. -/
theorem sidecar_retry_resets_existing_witness :
    (fetchEbookPOST ⟨true, some ⟨"u1", "a1", .downloaded, ⟨"a1", "T", "A", none⟩⟩,
      some ⟨"e1", .failed⟩⟩).createdEbookRequest = false ∧
    (fetchEbookPOST ⟨true, some ⟨"u1", "a1", .downloaded, ⟨"a1", "T", "A", none⟩⟩,
      some ⟨"e1", .failed⟩⟩).updatedExisting =
      some ("e1", { status := .pending, progress := 0, errorMessage := none }) ∧
    (fetchEbookPOST ⟨true, some ⟨"u1", "a1", .downloaded, ⟨"a1", "T", "A", none⟩⟩,
      some ⟨"e1", .failed⟩⟩).enqueuedSearchEbookJob = true := by
  have h := sidecar_retry_resets_existing
    ⟨true, some ⟨"u1", "a1", .downloaded, ⟨"a1", "T", "A", none⟩⟩, some ⟨"e1", .failed⟩⟩
    ⟨"e1", .failed⟩ ⟨"u1", "a1", .downloaded, ⟨"a1", "T", "A", none⟩⟩ rfl
  exact ⟨h.1, (h.2 rfl rfl (Or.inl rfl) (Or.inl rfl)).1,
    (h.2 rfl rfl (Or.inl rfl) (Or.inl rfl)).2⟩

/-- C6: if the parent Request does not exist, or its status is not
downloaded or available, the fetch-ebook route rejects the attempt and
creates no sidecar Request. -/
theorem sidecar_requires_completed_parent (env : FetchEbookEnv)
    (h : env.parent = none ∨
      ∀ p, env.parent = some p → ¬(p.status = .downloaded ∨ p.status = .available)) :
    (fetchEbookPOST env).createdEbookRequest = false ∧
    (fetchEbookPOST env).success = false := by
  unfold fetchEbookPOST
  cases hen : env.ebookSidecarEnabled with
  | false => simp
  | true =>
    simp only [Bool.not_true, Bool.false_eq_true, if_false]
    cases hp : env.parent with
    | none => simp
    | some parent =>
      have hns : ¬(parent.status = .downloaded ∨ parent.status = .available) := by
        rcases h with h | h
        · rw [hp] at h; cases h
        · exact h parent hp
      simp [hns]

/-- C6 witness: a pending (not completed) parent is rejected with no
sidecar created. -/
theorem sidecar_requires_completed_parent_witness :
    (fetchEbookPOST ⟨true, some ⟨"u1", "a1", .pending, ⟨"a1", "T", "A", none⟩⟩,
      none⟩).createdEbookRequest = false ∧
    (fetchEbookPOST ⟨true, some ⟨"u1", "a1", .pending, ⟨"a1", "T", "A", none⟩⟩,
      none⟩).success = false :=
  sidecar_requires_completed_parent
    ⟨true, some ⟨"u1", "a1", .pending, ⟨"a1", "T", "A", none⟩⟩, none⟩
    (Or.inr (fun p hp => by
      cases hp
      rintro (h | h) <;> cases h))

/-- C7 counterexample: for the reported path "/remote//a" (which starts
with the remote path "/remote") with mapping enabled, the code returns
the normalized "/local/a", not the literal prefix replacement
"/local//a" — refuting that the result is the path with the remote
prefix replaced by the local prefix. -/
theorem transform_literal_replacement_counterexample :
    listStartsWith "/remote//a".data "/remote".data = true ∧
    PathMapper.transform "/remote//a" ⟨true, "/remote", "/local"⟩ = "/local/a" ∧
    "/local/a" ≠ "/local" ++ "//a" := by
  refine ⟨by decide, by decide, by decide⟩

/-- C7 (amended): `transform` returns the reported path unchanged when
mapping is disabled, when the path or either configured path is empty,
or when the normalized path does not start with the normalized remote
path; otherwise it returns the normalized local path joined with the
remainder of the normalized path after the normalized remote prefix (so
prefix replacement happens up to path normalization); in particular
transform "/remote/a/b" with remote "/remote" and local "/local" is
"/local/a/b", and for every path transform with mapping disabled is the
identity. -/
theorem transform_normalized_mapping :
    (∀ path cfg, cfg.enabled = false → PathMapper.transform path cfg = path) ∧
    (∀ path cfg, (path = "" ∨ cfg.remotePath = "" ∨ cfg.localPath = "") →
      PathMapper.transform path cfg = path) ∧
    (∀ path cfg, listStartsWith (normalizePathChars path.data)
        (normalizePathChars cfg.remotePath.data) = false →
      PathMapper.transform path cfg = path) ∧
    PathMapper.transform "/remote/a/b" ⟨true, "/remote", "/local"⟩ = "/local/a/b" ∧
    PathMapper.transform "/other/a" ⟨true, "/remote", "/local"⟩ = "/other/a" ∧
    (∀ path cfg, cfg.enabled = true → path ≠ "" → cfg.remotePath ≠ "" →
      cfg.localPath ≠ "" →
      listStartsWith (normalizePathChars path.data)
        (normalizePathChars cfg.remotePath.data) = true →
      PathMapper.transform path cfg =
        ⟨pathJoinChars (normalizePathChars cfg.localPath.data)
          ((normalizePathChars path.data).drop
            (normalizePathChars cfg.remotePath.data).length)⟩) := by
  refine ⟨?_, ?_, ?_, by decide, by decide, ?_⟩
  · intro path cfg h
    simp [PathMapper.transform, h]
  · intro path cfg h
    rcases h with h | h | h <;>
      simp [PathMapper.transform, h]
  · intro path cfg h
    unfold PathMapper.transform
    cases hen : cfg.enabled with
    | false => simp
    | true =>
      simp only [Bool.not_true, Bool.false_eq_true, if_false]
      by_cases he : (path.data.isEmpty || cfg.remotePath.data.isEmpty ||
          cfg.localPath.data.isEmpty) = true
      · simp [he]
      · simp only [Bool.not_eq_true] at he
        simp [he, h]
  · intro path cfg hen hp hr hl h
    have hne : ∀ s : String, s ≠ "" → s.data.isEmpty = false := by
      intro s hs
      cases hd : s.data with
      | nil => exact absurd (String.ext (hd.trans rfl)) hs
      | cons a l => rfl
    unfold PathMapper.transform
    rw [hen]
    simp [hne path hp, hne cfg.remotePath hr, hne cfg.localPath hl, h]

/-- C7 witness: the disabled branch of the amended claim at a concrete
path and, through the enabled branch, the concrete mapped example. -/
theorem transform_normalized_mapping_witness :
    PathMapper.transform "/remote/a/b" ⟨false, "/remote", "/local"⟩ = "/remote/a/b" ∧
    PathMapper.transform "/remote/a/b" ⟨true, "/remote", "/local"⟩ = "/local/a/b" :=
  ⟨transform_normalized_mapping.1 "/remote/a/b" ⟨false, "/remote", "/local"⟩ rfl,
    transform_normalized_mapping.2.2.2.1⟩

/-- C8: the seeder scoring stage equals min(15, log10(seeders + 1) * 6);
it is monotone non-decreasing in the seed count, bounded above by 15,
and takes the values 0 at 0 seeders, exactly 6 at 9 seeders, and
exactly 15 at 999 seeders. -/
theorem seeder_score_properties :
    (∀ m k : ℕ, seederScore m ≤ seederScore (m + k)) ∧
    (∀ n : ℕ, seederScore n ≤ 15) ∧
    seederScore 0 = 0 ∧
    seederScore 9 = 6 ∧
    seederScore 999 = 15 := by
  refine ⟨?_, ?_, ?_, ?_, ?_⟩
  · intro m k
    refine min_le_min le_rfl ?_
    refine mul_le_mul_of_nonneg_right ?_ (by norm_num)
    refine Real.logb_le_logb_of_le (by norm_num) (by positivity) ?_
    push_cast
    linarith
  · intro n
    exact min_le_left _ _
  · show min 15 (Real.logb 10 (((0 : ℕ) : ℝ) + 1) * 6) = 0
    norm_num
  · show min 15 (Real.logb 10 (((9 : ℕ) : ℝ) + 1) * 6) = 6
    have h10 : ((9 : ℕ) : ℝ) + 1 = 10 := by norm_num
    rw [h10, Real.logb_self_eq_one (by norm_num), one_mul]
    exact min_eq_right (by norm_num)
  · show min 15 (Real.logb 10 (((999 : ℕ) : ℝ) + 1) * 6) = 15
    have h1000 : ((999 : ℕ) : ℝ) + 1 = (10 : ℝ) ^ (3 : ℕ) := by norm_num
    rw [h1000, Real.logb_pow, Real.logb_self_eq_one (by norm_num)]
    norm_num

/-- C9: a failure of the job-event database write is swallowed by the
fire-and-forget persistence: the call always returns normally (its
exception surface is `Except.ok` for every write attempt), a failed
write leaves the whole state untouched, and no write — failed or not —
ever changes the pipeline-critical Job or Request rows. -/
theorem persist_failure_swallowed :
    (∀ l level message metadata attempt st,
      (persistToDatabase l level message metadata attempt st).2 = Except.ok ()) ∧
    (∀ l level message metadata e st,
      (persistToDatabase l level message metadata (Except.error e) st).1 = st) ∧
    (∀ l level message metadata attempt st,
      (persistToDatabase l level message metadata attempt st).1.jobs = st.jobs ∧
      (persistToDatabase l level message metadata attempt st).1.requests = st.requests) := by
  refine ⟨?_, ?_, ?_⟩
  · intro l level m md attempt st
    cases attempt <;> rfl
  · intro l level m md e st
    rfl
  · intro l level m md attempt st
    cases attempt <;> exact ⟨rfl, rfl⟩

/-- C10: a debug-level call never writes to the persisted job-event
store, for every logger (including job-aware ones with a defined job
id), every configured log level, and every database-write outcome: the
`job_events` state after the call equals the state before it. -/
theorem debug_never_persisted :
    (∀ (l : RMABLogger) (cfgPriority : Nat) (message : String) (metadata : Option String)
      (attempt : Except String Unit) (st : SystemState),
      (l.debug cfgPriority message metadata attempt st).jobEvents = st.jobEvents) ∧
    (∀ (l : RMABLogger) (cfgPriority : Nat) (message : String) (metadata : Option String)
      (attempt : Except String Unit) (st : SystemState),
      (l.log cfgPriority .debug message metadata attempt st).jobEvents = st.jobEvents) := by
  have key : ∀ (l : RMABLogger) (cfgPriority : Nat) (message : String)
      (metadata : Option String) (attempt : Except String Unit) (st : SystemState),
      (l.log cfgPriority .debug message metadata attempt st).jobEvents = st.jobEvents := by
    intro l cfg m md a st
    unfold RMABLogger.log
    by_cases h : emitPriority .debug < cfg
    · simp [h]
    · simp [h]
  exact ⟨fun l cfg m md a st => key l cfg m md a st, key⟩
